import Mathlib

/-!
# Configuration resolution of trickster (`flags.go`)

A shallow embedding of `loadConfiguration` and its helpers, `loadFlags`,
`args.setConfig`, `loadEnvVars` and `loadConfigurationFile`, together with the
parts of the Go standard library they call (`strconv.ParseInt`, the `flag`
package's parse loop, `os.Getenv`).

* A Go `string` is a Lean `String`; its bytes are read through `String.data`.
  Every byte test of the embedded code compares with an ASCII character, for
  which bytes and characters agree.
* A Go `int` / `int64` is an `Int`; conversions wrap explicitly at the width.
* The process environment is a function `String → String` (`os.Getenv`
  returns the empty string for an unset variable).
* The file system and the `Config.LoadFile` method, which are declared outside
  `flags.go`, are fields of `Collaborators`.
* `strconv` and `flag` follow the Go standard library (Go 1.15 and later: base
  markers and underscores in base 0, exit status 0 for `-h` / `-help` and 2 for
  every other parse error under `flag.ExitOnError`).
* A call of `loadConfiguration` ends in an `Outcome`: the process exits with a
  status, or the call returns its error; both record what was printed on
  standard output and the paths `LoadFile` was invoked with.
-/

namespace Trickster

/-! ## Machine integers -/

/-- Width of the Go type `int` (and `strconv.IntSize`) on the 64-bit targets. -/
def intSize : Nat := 64

/-- Two's complement reading at width `w`: the conversions `int64(x)` and `int(x)`. -/
def wrapInt (w : Nat) (x : Int) : Int :=
  (x + 2 ^ (w - 1)) % 2 ^ w - 2 ^ (w - 1)

/-- Largest `uint64`. -/
def maxUint64 : Nat := 2 ^ 64 - 1

/-! ## `strconv` -/

/-- The error kinds of `strconv.NumError`. -/
inductive NumError where
  | ErrInvalid
  | ErrRange
  | ErrBase
  | ErrBitSize
  deriving DecidableEq, Repr

/-- The helper `lower(c)` of strconv: `c | ('x' - 'X')`. -/
def lower (c : Char) : Nat := c.toNat ||| 32

/-- The helper `underscoreOK` of strconv, after the optional sign and base marker:
`saw` is the last kind of character seen (`'0'` digit, `'_'`, `'!'` other). -/
def underscoreScan (hex : Bool) : List Char → Char → Bool
  | [], saw => saw != '_'
  | c :: cs, saw =>
    if ('0'.toNat ≤ c.toNat ∧ c.toNat ≤ '9'.toNat) ∨
        (hex = true ∧ 'a'.toNat ≤ lower c ∧ lower c ≤ 'f'.toNat) then
      underscoreScan hex cs '0'
    else if c = '_' then
      if saw != '0' then false else underscoreScan hex cs '_'
    else if saw = '_' then false
    else underscoreScan hex cs '!'

/-- The function `underscoreOK` of strconv: underscores only separate digits. -/
def underscoreOK (s : List Char) : Bool :=
  let s := match s with
    | c :: cs => if c = '-' ∨ c = '+' then cs else s
    | [] => s
  match s with
  | c0 :: c1 :: cs =>
    if c0 = '0' ∧ (lower c1 = 'b'.toNat ∨ lower c1 = 'o'.toNat ∨ lower c1 = 'x'.toNat) then
      underscoreScan (lower c1 == 'x'.toNat) cs '0'
    else underscoreScan false s '^'
  | _ => underscoreScan false s '^'

/-- The digit loop of `strconv.ParseUint`: the value so far `n`, whether an
underscore was seen, and the loop's early returns `(0, syntax)` and
`(maxVal, range)`. -/
def digitLoop (base : Nat) (base0 : Bool) (cutoff maxVal : Nat) :
    List Char → Nat → Bool → Nat × Option NumError × Bool
  | [], n, us => (n, none, us)
  | c :: cs, n, us =>
    if c = '_' ∧ base0 = true then digitLoop base base0 cutoff maxVal cs n true
    else
      let d : Option Nat :=
        if '0'.toNat ≤ c.toNat ∧ c.toNat ≤ '9'.toNat then some (c.toNat - '0'.toNat)
        else if 'a'.toNat ≤ lower c ∧ lower c ≤ 'z'.toNat then some (lower c - 'a'.toNat + 10)
        else none
      match d with
      | none => (0, some NumError.ErrInvalid, us)
      | some d =>
        if d ≥ base then (0, some NumError.ErrInvalid, us)
        else if n ≥ cutoff then (maxVal, some NumError.ErrRange, us)
        else
          let m := (n * base) % 2 ^ 64
          let n1 := (m + d) % 2 ^ 64
          if n1 < m ∨ n1 > maxVal then (maxVal, some NumError.ErrRange, us)
          else digitLoop base base0 cutoff maxVal cs n1 us

/-- The base selection of `strconv.ParseUint`: a base in 2..36 is kept; base 0
reads the base off the leading `0b`, `0o`, `0x` or `0`; any other base is refused. -/
def pickBase (s : List Char) (base : Nat) : Option (Nat × List Char) :=
  if 2 ≤ base ∧ base ≤ 36 then some (base, s)
  else if base = 0 then
    match s with
    | '0' :: rest =>
      match rest with
      | c1 :: c2 :: more =>
        if lower c1 = 'b'.toNat then some (2, c2 :: more)
        else if lower c1 = 'o'.toNat then some (8, c2 :: more)
        else if lower c1 = 'x'.toNat then some (16, c2 :: more)
        else some (8, rest)
      | _ => some (8, rest)
    | _ => some (10, s)
  else none

/-- The function `strconv.ParseUint(s, base, bitSize)`: the value returned and the error. -/
def ParseUint (s : List Char) (base bitSize : Nat) : Nat × Option NumError :=
  if s = [] then (0, some NumError.ErrInvalid)
  else
    match pickBase s base with
    | none => (0, some NumError.ErrBase)
    | some (b, digits) =>
      if bitSize > 64 then (0, some NumError.ErrBitSize)
      else
        let bits := if bitSize = 0 then intSize else bitSize
        let cutoff := maxUint64 / b + 1
        let maxVal := 2 ^ bits - 1
        match digitLoop b (base == 0) cutoff maxVal digits 0 false with
        | (n, some e, _) => (n, some e)
        | (n, none, us) =>
          if us = true ∧ underscoreOK s = false then (0, some NumError.ErrInvalid)
          else (n, none)

/-- The function `strconv.ParseInt(s, base, bitSize)`: the value returned and the error. -/
def ParseInt (s : List Char) (base bitSize : Nat) : Int × Option NumError :=
  match s with
  | [] => (0, some NumError.ErrInvalid)
  | c :: cs =>
    let neg := decide (c = '-')
    let body := if c = '+' ∨ c = '-' then cs else s
    match ParseUint body base bitSize with
    | (un, err) =>
      if err ≠ none ∧ err ≠ some NumError.ErrRange then (0, err)
      else
        let bits := if bitSize = 0 then intSize else bitSize
        let cutoff : Nat := 2 ^ (bits - 1)
        if neg = false ∧ un ≥ cutoff then (((cutoff - 1 : Nat) : Int), some NumError.ErrRange)
        else if neg = true ∧ un > cutoff then (-(cutoff : Int), some NumError.ErrRange)
        else
          let n := wrapInt 64 (un : Int)
          (if neg then wrapInt 64 (-n) else n, none)

/-! ## The `flag` package -/

/-- A registered flag: how `Value.Set` writes the bound variable (`none` for a
value it rejects) and whether it is a boolean flag. -/
structure Flag (σ : Type) where
  IsBoolFlag : Bool
  Set : String → σ → Option σ

/-- The errors of `FlagSet.parseOne`. -/
inductive FlagError where
  | ErrHelp
  | badFlag (s : String)
  | notDefined (name : String)
  | needsArgument (name : String)
  | invalidValue (value name : String)
  deriving DecidableEq, Repr

/-- A `flag.FlagSet` whose flags are bound to the fields of a `σ`: the
registered flags, the names set while parsing, the arguments left, and the
bound variables. -/
structure FlagSet (σ : Type) where
  formal : List (String × Flag σ)
  actual : List String
  args : List String
  vars : σ

/-- The constructor `flag.NewFlagSet`, over the zero value of the bound variables. -/
def NewFlagSet {σ : Type} (zero : σ) : FlagSet σ :=
  { formal := [], actual := [], args := [], vars := zero }

/-- The method `FlagSet.StringVar(p, name, value, usage)`: `put` writes through `p`. -/
def FlagSet.StringVar {σ : Type} (f : FlagSet σ) (put : σ → String → σ)
    (name value : String) : FlagSet σ :=
  { f with
    vars := put f.vars value
    formal := f.formal ++ [(name, { IsBoolFlag := false, Set := fun s v => some (put v s) })] }

/-- The method `FlagSet.IntVar(p, name, value, usage)`: `intValue.Set` parses
with `strconv.ParseInt(s, 0, strconv.IntSize)`. -/
def FlagSet.IntVar {σ : Type} (f : FlagSet σ) (put : σ → Int → σ)
    (name : String) (value : Int) : FlagSet σ :=
  { f with
    vars := put f.vars value
    formal := f.formal ++ [(name,
      { IsBoolFlag := false
        Set := fun s v =>
          match ParseInt s.data 0 intSize with
          | (n, none) => some (put v (wrapInt intSize n))
          | (_, some _) => none })] }

/-- The split of `name=value` in `parseOne`: the first `=` at an index `≥ 1`. -/
def splitEq : List Char → List Char × Option (List Char)
  | [] => ([], none)
  | c :: cs =>
    match cs.span (fun x => x != '=') with
    | (pre, []) => (c :: pre, none)
    | (pre, _ :: value) => (c :: pre, some value)

/-- What one call of `FlagSet.parseOne` does with the head argument:
`done` is the return `(false, nil)`, for an argument that is no flag
(`consumed = false`) or for the terminator `--`, which is dropped
(`consumed = true`); `fail` is the return `(false, err)`; `seen` is the return
`(true, nil)` after flag `name` wrote the bound variables, `usedNext` telling
whether the value was the argument after the flag. -/
inductive Step (σ : Type) where
  | done (consumed : Bool)
  | fail (e : FlagError)
  | seen (name : String) (vars : σ) (usedNext : Bool)

/-- The method `FlagSet.parseOne`, on the head argument `s`, the argument after
it (`none` at the end of the arguments) and the bound variables. -/
def parseOne {σ : Type} (formal : List (String × Flag σ)) (s : String)
    (next : Option String) (vars : σ) : Step σ :=
  match s.data with
  | [] => Step.done false
  | [_] => Step.done false
  | c0 :: c1 :: tail =>
    if c0 ≠ '-' then Step.done false
    else if c1 = '-' ∧ tail = [] then Step.done true
    else
      let name := if c1 = '-' then tail else c1 :: tail
      if name = [] ∨ name.head? = some '-' ∨ name.head? = some '=' then
        Step.fail (FlagError.badFlag s)
      else
        match splitEq name with
        | (nm, value) =>
          let name := String.mk nm
          match formal.lookup name with
          | none =>
            if name = "help" ∨ name = "h" then Step.fail FlagError.ErrHelp
            else Step.fail (FlagError.notDefined name)
          | some flag =>
            if flag.IsBoolFlag then
              let value := match value with
                | some v => String.mk v
                | none => "true"
              match flag.Set value vars with
              | none => Step.fail (FlagError.invalidValue value name)
              | some vars => Step.seen name vars false
            else
              match value, next with
              | some v, _ =>
                match flag.Set (String.mk v) vars with
                | none => Step.fail (FlagError.invalidValue (String.mk v) name)
                | some vars => Step.seen name vars false
              | none, some v =>
                match flag.Set v vars with
                | none => Step.fail (FlagError.invalidValue v name)
                | some vars => Step.seen name vars true
              | none, none => Step.fail (FlagError.needsArgument name)

/-- The loop of `FlagSet.Parse`: `parseOne` is run on the arguments left until
it reports something other than a flag seen. `actual` are the names set so far.
The result is the flag set when the loop ends normally, or the error
`parseOne` failed with. -/
def parseArgs {σ : Type} (formal : List (String × Flag σ)) :
    List String → List String → σ → Except FlagError (FlagSet σ)
  | [], actual, vars => .ok { formal := formal, actual := actual, args := [], vars := vars }
  | [s], actual, vars =>
    match parseOne formal s none vars with
    | Step.done consumed =>
      .ok { formal := formal, actual := actual, args := if consumed then [] else [s], vars := vars }
    | Step.fail e => .error e
    | Step.seen name vars _ =>
      .ok { formal := formal, actual := name :: actual, args := [], vars := vars }
  | s :: v :: rest, actual, vars =>
    match parseOne formal s (some v) vars with
    | Step.done consumed =>
      .ok { formal := formal, actual := actual,
            args := if consumed then v :: rest else s :: v :: rest, vars := vars }
    | Step.fail e => .error e
    | Step.seen name vars usedNext =>
      if usedNext then parseArgs formal rest (name :: actual) vars
      else parseArgs formal (v :: rest) (name :: actual) vars

/-- The method `FlagSet.Parse(arguments)`, before its error handling. -/
def FlagSet.Parse {σ : Type} (f : FlagSet σ) (arguments : List String) :
    Except FlagError (FlagSet σ) :=
  parseArgs f.formal arguments f.actual f.vars

/-- The status `FlagSet.Parse` exits the process with under `flag.ExitOnError`. -/
def exitStatus : FlagError → Nat
  | FlagError.ErrHelp => 0
  | _ => 2

/-! ## `flags.go` -/

/-- The Go type `error`, by its message. -/
abbrev Error := String

/-- The section `Config.Main`: the fields `flags.go` names. -/
structure GeneralConfig where
  InstanceID : Int
  ConfigFile : String
  deriving DecidableEq, Repr

/-- The section `Config.Logging`. -/
structure LoggingConfig where
  LogLevel : String
  deriving DecidableEq, Repr

/-- The section `Config.Metrics`. -/
structure MetricsConfig where
  ListenPort : Int
  deriving DecidableEq, Repr

/-- The section `Config.ProxyServer`. -/
structure ProxyServerConfig where
  ListenPort : Int
  deriving DecidableEq, Repr

/-- The type `Config`, declared outside `flags.go`: the fields `flags.go` reads
or writes, and `rest` for every other field of the record. -/
structure Config (ρ : Type) where
  DefaultOriginURL : String
  Logging : LoggingConfig
  Main : GeneralConfig
  Metrics : MetricsConfig
  ProxyServer : ProxyServerConfig
  rest : ρ
  deriving DecidableEq, Repr

/-- Command-line flag names. -/
def cfConfig : String := "config"
/-- Command-line flag `version`. -/
def cfVersion : String := "version"
/-- Command-line flag `log-level`. -/
def cfLogLevel : String := "log-level"
/-- Command-line flag `instance-id`. -/
def cfInstanceID : String := "instance-id"
/-- Command-line flag `origin`. -/
def cfOrigin : String := "origin"
/-- Command-line flag `proxy-port`. -/
def cfProxyPort : String := "proxy-port"
/-- Command-line flag `metrics-port`. -/
def cfMetricsPort : String := "metrics-port"

/-- Environment variable of the origin URL. -/
def evOrigin : String := "TRK_ORIGIN"
/-- Environment variable of the proxy port. -/
def evProxyPort : String := "TRK_PROXY_PORT"
/-- Environment variable of the metrics port. -/
def evMetricsPort : String := "TRK_METRICS_PORT"
/-- Environment variable of the log level. -/
def evLogLevel : String := "TRK_LOG_LEVEL"

/-- The process environment as `os.Getenv` reads it: `""` for an unset variable. -/
abbrev Env := String → String

/-- The struct `args` of `flags.go`. -/
structure args where
  path : String
  origin : String
  proxyListenPort : Int
  metricsListenPort : Int
  logLevel : String
  instanceID : Int
  version : Bool
  deriving DecidableEq, Repr

/-- The zero value of `args` (`var args args`). -/
def args.zero : args :=
  { path := "", origin := "", proxyListenPort := 0, metricsListenPort := 0,
    logLevel := "", instanceID := 0, version := false }

/-- What `flags.go` uses and does not declare: the constant
`applicationVersion`, whether `os.Open(name)` succeeds, and the method
`c.LoadFile(path)`, which returns the record as it leaves it and its error. -/
structure Collaborators (ρ : Type) where
  applicationVersion : String
  Open : String → Bool
  LoadFile : Config ρ → String → Config ρ × Option Error

/-- The function `loadEnvVars(c)`, `flags.go` lines 66-91. -/
def loadEnvVars {ρ : Type} (env : Env) (c : Config ρ) : Config ρ :=
  let c := if env evOrigin ≠ "" then { c with DefaultOriginURL := env evOrigin } else c
  let c :=
    if env evProxyPort ≠ "" then
      match ParseInt (env evProxyPort).data 10 64 with
      | (y, none) => { c with ProxyServer := { c.ProxyServer with ListenPort := wrapInt intSize y } }
      | (_, some _) => c
    else c
  let c :=
    if env evMetricsPort ≠ "" then
      match ParseInt (env evMetricsPort).data 10 64 with
      | (y, none) => { c with Metrics := { c.Metrics with ListenPort := wrapInt intSize y } }
      | (_, some _) => c
    else c
  if env evLogLevel ≠ "" then { c with Logging := { c.Logging with LogLevel := env evLogLevel } }
  else c

/-- The method `args.setConfig(c)`, `flags.go` lines 103-116. -/
def args.setConfig {ρ : Type} (a : args) (c : Config ρ) : Config ρ :=
  let c := if a.origin.length > 0 then { c with DefaultOriginURL := a.origin } else c
  let c :=
    if a.proxyListenPort > 0 then
      { c with ProxyServer := { c.ProxyServer with ListenPort := a.proxyListenPort } }
    else c
  let c :=
    if a.metricsListenPort > 0 then
      { c with Metrics := { c.Metrics with ListenPort := a.metricsListenPort } }
    else c
  let c := { c with Logging := { c.Logging with LogLevel := a.logLevel } }
  { c with Main := { c.Main with InstanceID := a.instanceID } }

/-- The flag set `loadFlags` builds, `flags.go` lines 120-128: `var args args`,
`flag.NewFlagSet`, and the six registrations (`version` is not among them). -/
def registeredFlags : FlagSet args :=
  let f := NewFlagSet args.zero
  let f := f.StringVar (fun a v => { a with logLevel := v }) cfLogLevel "INFO"
  let f := f.IntVar (fun a v => { a with instanceID := v }) cfInstanceID 0
  let f := f.StringVar (fun a v => { a with origin := v }) cfOrigin ""
  let f := f.IntVar (fun a v => { a with proxyListenPort := v }) cfProxyPort 0
  let f := f.IntVar (fun a v => { a with metricsListenPort := v }) cfMetricsPort 0
  f.StringVar (fun a v => { a with path := v }) cfConfig ""

/-- The flag set `loadFlags` ends with, `flags.go` line 130:
`f.Parse(arguments)` on the registered flags, or the error it stops at. -/
def loadFlagSet (arguments : List String) : Except FlagError (FlagSet args) :=
  registeredFlags.Parse arguments

/-- The function `loadFlags(arguments)`, `flags.go` lines 119-133: the parsed
`args`, or the status the flag set (`flag.ExitOnError`) exits the process with. -/
def loadFlags (arguments : List String) : Except Nat args :=
  match loadFlagSet arguments with
  | .ok f => .ok f.vars
  | .error e => .error (exitStatus e)

/-- What `loadConfigurationFile` leaves: the record, the error returned, and
the paths `LoadFile` was invoked with. -/
structure FileLoad (ρ : Type) where
  c : Config ρ
  err : Option Error
  loaded : List String

/-- The function `loadConfigurationFile(c, a)`, `flags.go` lines 138-156. -/
def loadConfigurationFile {ρ : Type} (w : Collaborators ρ) (c : Config ρ) (a : args) :
    FileLoad ρ :=
  if a.path ≠ "" then
    match w.LoadFile c a.path with
    | (c1, some err) => { c := c1, err := some err, loaded := [a.path] }
    | (c1, none) => { c := c1, err := none, loaded := [a.path] }
  else
    if w.Open c.Main.ConfigFile then
      match w.LoadFile c c.Main.ConfigFile with
      | (c1, some err) => { c := c1, err := some err, loaded := [c.Main.ConfigFile] }
      | (c1, none) => { c := c1, err := none, loaded := [c.Main.ConfigFile] }
    else { c := c, err := none, loaded := [] }

/-- How a call of `loadConfiguration` ends: the process exits (`os.Exit`) with
a status, or the call returns its `error` (`none` for `nil`). Both carry what
was printed on standard output, the paths `LoadFile` was invoked with, and the
record as the call leaves it. -/
inductive Outcome (ρ : Type) where
  | exited (status : Nat) (stdout : List String) (loaded : List String) (c : Config ρ)
  | returned (err : Option Error) (stdout : List String) (loaded : List String) (c : Config ρ)

/-- The function `loadConfiguration(c, arguments)`, `flags.go` lines 43-64. -/
def loadConfiguration {ρ : Type} (w : Collaborators ρ) (env : Env) (c : Config ρ)
    (arguments : List String) : Outcome ρ :=
  match loadFlags arguments with
  | .error status => Outcome.exited status [] [] c
  | .ok a =>
    if a.version then Outcome.exited 3 [w.applicationVersion] [] c
    else
      let r := loadConfigurationFile w c a
      match r.err with
      | some err => Outcome.returned (some err) [] r.loaded r.c
      | none => Outcome.returned none [] r.loaded (loadEnvVars env (a.setConfig r.c))

/-! ## Sample inputs -/

/-- A record holding the defaults trickster ships with. -/
def sampleConfig : Config Unit :=
  { DefaultOriginURL := "http://prometheus:9090"
    Logging := { LogLevel := "INFO" }
    Main := { InstanceID := 0, ConfigFile := "/etc/trickster/trickster.conf" }
    Metrics := { ListenPort := 8082 }
    ProxyServer := { ListenPort := 9090 }
    rest := () }

/-- A machine without any configuration file: nothing opens, every load fails. -/
def noFiles : Collaborators Unit :=
  { applicationVersion := "0.0.11"
    Open := fun _ => false
    LoadFile := fun c _ => (c, some "no such file or directory") }

/-- A machine whose configuration files all open and set `instance_id = 7`. -/
def fileWithInstance7 : Collaborators Unit :=
  { applicationVersion := "0.0.11"
    Open := fun _ => true
    LoadFile := fun c _ => ({ c with Main := { c.Main with InstanceID := 7 } }, none) }

/-- A machine whose default configuration file opens and fails to parse. -/
def brokenDefaultFile : Collaborators Unit :=
  { applicationVersion := "0.0.11"
    Open := fun _ => true
    LoadFile := fun c _ => (c, some "toml: bad syntax") }

/-- The environment with no variable set. -/
def emptyEnv : Env := fun _ => ""

/-- The environment with the single variable `name` set to `value`. -/
def envWith (name value : String) : Env := fun x => if x = name then value else ""

/-- An environment that sets all four variables `loadEnvVars` reads. -/
def fullEnv : Env := fun x =>
  if x = evOrigin then "http://origin:9090"
  else if x = evProxyPort then "9090"
  else if x = evMetricsPort then "9091"
  else if x = evLogLevel then "DEBUG"
  else ""

/-- An environment whose two port variables do not parse: one is not a number,
the other does not fit an `int64`; the origin and the log level are set. -/
def badPortsEnv : Env := fun x =>
  if x = evOrigin then "http://origin:9090"
  else if x = evProxyPort then "http"
  else if x = evMetricsPort then "99999999999999999999"
  else if x = evLogLevel then "DEBUG"
  else ""

/-- The parsed flags when no flag is given. -/
def defaultArgs : args :=
  { path := "", origin := "", proxyListenPort := 0, metricsListenPort := 0,
    logLevel := "INFO", instanceID := 0, version := false }

/-- The parsed flags of the arguments `--proxy-port -1`. -/
def negativePortArgs : args := { defaultArgs with proxyListenPort := -1 }

/-- The parsed flags of the arguments `--proxy-port 8080`. -/
def port8080Args : args := { defaultArgs with proxyListenPort := 8080 }

/-- The parsed flags of the arguments `--proxy-port 8080 --metrics-port 8081
--origin http://flag:1 --log-level WARN --instance-id 5`. -/
def allFlagsArgs : args :=
  { path := "", origin := "http://flag:1", proxyListenPort := 8080,
    metricsListenPort := 8081, logLevel := "WARN", instanceID := 5, version := false }

/-- The flag set `loadFlags` ends with on the arguments `--instance-id 3`. -/
def instance3Flags : FlagSet args :=
  { formal := registeredFlags.formal
    actual := [cfInstanceID]
    args := []
    vars := { defaultArgs with instanceID := 3 } }

/-- The record `sampleConfig` after every field `loadEnvVars` writes took its
value from `fullEnv`. -/
def overriddenConfig : Config Unit :=
  { sampleConfig with
    DefaultOriginURL := "http://origin:9090"
    Logging := { LogLevel := "DEBUG" }
    Metrics := { ListenPort := 9091 }
    ProxyServer := { ListenPort := 9090 } }

/-! ## Field-by-field description of the two overlays -/

section Overlays

variable {ρ : Type}

theorem wrapInt_idem (x : Int) : wrapInt 64 (wrapInt 64 x) = wrapInt 64 x := by
  simp only [wrapInt]
  norm_num

/-- A value `strconv.ParseInt(s, base, 64)` returns without error is an `int64`,
which the conversion `int(y)` leaves as it is. -/
theorem ParseInt_int (s : List Char) (base : Nat) (y : Int)
    (h : ParseInt s base 64 = (y, none)) : wrapInt intSize y = y := by
  have key : ∃ z, y = wrapInt 64 z := by
    unfold ParseInt at h
    cases s with
    | nil => simp at h
    | cons c cs =>
      simp only at h
      generalize ParseUint (if c = '+' ∨ c = '-' then cs else c :: cs) base 64 = r at h
      obtain ⟨un, err⟩ := r
      simp only at h
      split_ifs at h <;>
        first
        | exact ⟨_, (Prod.mk.inj h).1.symm⟩
        | (exfalso; simp_all)
  obtain ⟨z, rfl⟩ := key
  exact wrapInt_idem z

theorem setConfig_DefaultOriginURL (a : args) (c : Config ρ) :
    (a.setConfig c).DefaultOriginURL = if a.origin.length > 0 then a.origin else c.DefaultOriginURL := by
  unfold args.setConfig
  split_ifs <;> rfl

theorem setConfig_ProxyPort (a : args) (c : Config ρ) :
    (a.setConfig c).ProxyServer.ListenPort =
      if a.proxyListenPort > 0 then a.proxyListenPort else c.ProxyServer.ListenPort := by
  unfold args.setConfig
  split_ifs <;> rfl

theorem setConfig_MetricsPort (a : args) (c : Config ρ) :
    (a.setConfig c).Metrics.ListenPort =
      if a.metricsListenPort > 0 then a.metricsListenPort else c.Metrics.ListenPort := by
  unfold args.setConfig
  split_ifs <;> rfl

theorem setConfig_LogLevel (a : args) (c : Config ρ) :
    (a.setConfig c).Logging.LogLevel = a.logLevel := by
  unfold args.setConfig
  split_ifs <;> rfl

theorem setConfig_InstanceID (a : args) (c : Config ρ) :
    (a.setConfig c).Main.InstanceID = a.instanceID := by
  unfold args.setConfig
  split_ifs <;> rfl

theorem setConfig_ConfigFile (a : args) (c : Config ρ) :
    (a.setConfig c).Main.ConfigFile = c.Main.ConfigFile := by
  unfold args.setConfig
  split_ifs <;> rfl

theorem setConfig_rest (a : args) (c : Config ρ) : (a.setConfig c).rest = c.rest := by
  unfold args.setConfig
  split_ifs <;> rfl

theorem loadEnvVars_DefaultOriginURL (env : Env) (c : Config ρ) :
    (loadEnvVars env c).DefaultOriginURL =
      if env evOrigin ≠ "" then env evOrigin else c.DefaultOriginURL := by
  unfold loadEnvVars
  split_ifs <;> (repeat' split) <;> rfl

theorem loadEnvVars_ProxyPort (env : Env) (c : Config ρ) :
    (loadEnvVars env c).ProxyServer.ListenPort =
      if env evProxyPort ≠ "" then
        match ParseInt (env evProxyPort).data 10 64 with
        | (y, none) => y
        | (_, some _) => c.ProxyServer.ListenPort
      else c.ProxyServer.ListenPort := by
  unfold loadEnvVars
  rcases hp : ParseInt (env evProxyPort).data 10 64 with ⟨y, _ | e⟩
  · have hy := ParseInt_int _ _ _ hp
    split_ifs <;> (repeat' split) <;> simp_all
  · split_ifs <;> (repeat' split) <;> simp_all

theorem loadEnvVars_MetricsPort (env : Env) (c : Config ρ) :
    (loadEnvVars env c).Metrics.ListenPort =
      if env evMetricsPort ≠ "" then
        match ParseInt (env evMetricsPort).data 10 64 with
        | (y, none) => y
        | (_, some _) => c.Metrics.ListenPort
      else c.Metrics.ListenPort := by
  unfold loadEnvVars
  rcases hp : ParseInt (env evMetricsPort).data 10 64 with ⟨y, _ | e⟩
  · have hy := ParseInt_int _ _ _ hp
    split_ifs <;> (repeat' split) <;> simp_all
  · split_ifs <;> (repeat' split) <;> simp_all

theorem loadEnvVars_LogLevel (env : Env) (c : Config ρ) :
    (loadEnvVars env c).Logging.LogLevel =
      if env evLogLevel ≠ "" then env evLogLevel else c.Logging.LogLevel := by
  unfold loadEnvVars
  split_ifs <;> (repeat' split) <;> rfl

theorem loadEnvVars_Main (env : Env) (c : Config ρ) : (loadEnvVars env c).Main = c.Main := by
  unfold loadEnvVars
  split_ifs <;> (repeat' split) <;> rfl

theorem loadEnvVars_rest (env : Env) (c : Config ρ) : (loadEnvVars env c).rest = c.rest := by
  unfold loadEnvVars
  split_ifs <;> (repeat' split) <;> rfl

/-- Two records are equal when they agree on every field. -/
theorem Config.ext_fields {c d : Config ρ}
    (h1 : c.DefaultOriginURL = d.DefaultOriginURL)
    (h2 : c.Logging.LogLevel = d.Logging.LogLevel)
    (h3 : c.Main.InstanceID = d.Main.InstanceID)
    (h4 : c.Main.ConfigFile = d.Main.ConfigFile)
    (h5 : c.Metrics.ListenPort = d.Metrics.ListenPort)
    (h6 : c.ProxyServer.ListenPort = d.ProxyServer.ListenPort)
    (h7 : c.rest = d.rest) : c = d := by
  obtain ⟨o, ⟨l⟩, ⟨i, f⟩, ⟨m⟩, ⟨p⟩, r⟩ := c
  obtain ⟨o2, ⟨l2⟩, ⟨i2, f2⟩, ⟨m2⟩, ⟨p2⟩, r2⟩ := d
  simp_all

/-! ## The flag parser -/

theorem parseOne_seen {σ : Type} (formal : List (String × Flag σ)) (s name : String)
    (next : Option String) (vars vars' : σ) (b : Bool)
    (h : parseOne formal s next vars = Step.seen name vars' b) :
    ∃ flag value, formal.lookup name = some flag ∧ flag.Set value vars = some vars' := by
  unfold parseOne at h
  simp only at h
  repeat' split at h
  all_goals first
    | (cases h; done)
    | (cases h; exact ⟨_, _, by assumption, by assumption⟩)

/-- A property of the names set and the bound variables that every successful
`Value.Set` of a registered flag preserves holds when `Parse` returns. -/
theorem parseArgs_invariant {σ : Type} (formal : List (String × Flag σ))
    (P : List String → σ → Prop)
    (hstep : ∀ (name value : String) (flag : Flag σ) (actual : List String) (vars vars' : σ),
      formal.lookup name = some flag → flag.Set value vars = some vars' →
      P actual vars → P (name :: actual) vars')
    (l actual : List String) (vars : σ) :
    ∀ f : FlagSet σ, P actual vars → parseArgs formal l actual vars = .ok f →
      P f.actual f.vars := by
  have hone : ∀ (s name : String) (next : Option String) (b : Bool) (actual : List String)
      (vars vars' : σ), parseOne formal s next vars = Step.seen name vars' b →
      P actual vars → P (name :: actual) vars' := by
    intro s name next b actual vars vars' hs hP
    obtain ⟨flag, value, h1, h2⟩ := parseOne_seen formal s name next vars vars' b hs
    exact hstep name value flag actual vars vars' h1 h2 hP
  induction l, actual, vars using parseArgs.induct formal with
  | case1 actual vars =>
    intro f hP h
    rw [parseArgs] at h
    simp only [Except.ok.injEq] at h
    subst h
    exact hP
  | case2 s actual vars consumed hs =>
    intro f hP h
    rw [parseArgs, hs] at h
    simp only [Except.ok.injEq] at h
    subst h
    exact hP
  | case3 s actual vars e hs =>
    intro f hP h
    rw [parseArgs, hs] at h
    simp at h
  | case4 s actual vars name vars' b hs =>
    intro f hP h
    rw [parseArgs, hs] at h
    simp only [Except.ok.injEq] at h
    subst h
    exact hone _ _ _ _ _ _ _ hs hP
  | case5 s v rest actual vars consumed hs =>
    intro f hP h
    rw [parseArgs, hs] at h
    simp only [Except.ok.injEq] at h
    subst h
    exact hP
  | case6 s v rest actual vars e hs =>
    intro f hP h
    rw [parseArgs, hs] at h
    simp at h
  | case7 s v rest actual vars name vars' hs ih =>
    intro f hP h
    rw [parseArgs, hs] at h
    simp only [if_true] at h
    exact ih f (hone _ _ _ _ _ _ _ hs hP) h
  | case8 s v rest actual vars name vars' b hs hb ih =>
    intro f hP h
    rw [parseArgs, hs] at h
    simp only [hb] at h
    exact ih f (hone _ _ _ _ _ _ _ hs hP) h

/-- What a successful `Value.Set` of a flag registered by `loadFlags` changes:
never `version`, and no field other than the one the flag is bound to. -/
theorem registeredFlags_Set (name value : String) (flag : Flag args) (vars vars' : args)
    (hl : registeredFlags.formal.lookup name = some flag)
    (hs : flag.Set value vars = some vars') :
    vars'.version = vars.version ∧
    (name ≠ cfLogLevel → vars'.logLevel = vars.logLevel) ∧
    (name ≠ cfInstanceID → vars'.instanceID = vars.instanceID) ∧
    (name ≠ cfOrigin → vars'.origin = vars.origin) ∧
    (name ≠ cfProxyPort → vars'.proxyListenPort = vars.proxyListenPort) ∧
    (name ≠ cfMetricsPort → vars'.metricsListenPort = vars.metricsListenPort) ∧
    (name ≠ cfConfig → vars'.path = vars.path) := by
  simp only [registeredFlags, NewFlagSet, FlagSet.StringVar, FlagSet.IntVar, List.nil_append,
    List.cons_append, List.lookup] at hl
  repeat' split at hl
  all_goals
    first
    | (cases hl; done)
    | (cases hl
       rename_i hname
       have hname := eq_of_beq hname
       simp only at hs
       try split at hs
       all_goals
         first
         | (cases hs; done)
         | (cases hs
            refine ⟨rfl, ?_, ?_, ?_, ?_, ?_, ?_⟩ <;> intro hne <;>
              first
              | rfl
              | exact absurd hname hne))

/-- What `loadFlags` leaves in the flag set: `version` is never set, and a
flag whose name was not set while parsing holds its declared default. -/
theorem loadFlagSet_defaults (arguments : List String) (f : FlagSet args)
    (h : loadFlagSet arguments = .ok f) :
    f.vars.version = false ∧
    (cfLogLevel ∉ f.actual → f.vars.logLevel = "INFO") ∧
    (cfInstanceID ∉ f.actual → f.vars.instanceID = 0) ∧
    (cfOrigin ∉ f.actual → f.vars.origin = "") ∧
    (cfProxyPort ∉ f.actual → f.vars.proxyListenPort = 0) ∧
    (cfMetricsPort ∉ f.actual → f.vars.metricsListenPort = 0) ∧
    (cfConfig ∉ f.actual → f.vars.path = "") := by
  refine parseArgs_invariant registeredFlags.formal
    (fun actual vars =>
      vars.version = false ∧
      (cfLogLevel ∉ actual → vars.logLevel = "INFO") ∧
      (cfInstanceID ∉ actual → vars.instanceID = 0) ∧
      (cfOrigin ∉ actual → vars.origin = "") ∧
      (cfProxyPort ∉ actual → vars.proxyListenPort = 0) ∧
      (cfMetricsPort ∉ actual → vars.metricsListenPort = 0) ∧
      (cfConfig ∉ actual → vars.path = ""))
    ?_ arguments registeredFlags.actual registeredFlags.vars f ?_ h
  · intro name value flag actual vars vars' hl hs hP
    obtain ⟨h0, h1, h2, h3, h4, h5, h6⟩ := registeredFlags_Set name value flag vars vars' hl hs
    obtain ⟨p0, p1, p2, p3, p4, p5, p6⟩ := hP
    simp only [List.mem_cons, not_or] at *
    refine ⟨h0.trans p0, ?_, ?_, ?_, ?_, ?_, ?_⟩
    · intro hn
      rw [h1 (Ne.symm hn.1)]
      exact p1 hn.2
    · intro hn
      rw [h2 (Ne.symm hn.1)]
      exact p2 hn.2
    · intro hn
      rw [h3 (Ne.symm hn.1)]
      exact p3 hn.2
    · intro hn
      rw [h4 (Ne.symm hn.1)]
      exact p4 hn.2
    · intro hn
      rw [h5 (Ne.symm hn.1)]
      exact p5 hn.2
    · intro hn
      rw [h6 (Ne.symm hn.1)]
      exact p6 hn.2
  · exact ⟨rfl, fun _ => rfl, fun _ => rfl, fun _ => rfl, fun _ => rfl, fun _ => rfl,
      fun _ => rfl⟩

theorem loadFlags_of_flagSet (arguments : List String) (f : FlagSet args)
    (h : loadFlagSet arguments = .ok f) : loadFlags arguments = .ok f.vars := by
  unfold loadFlags
  rw [h]

theorem loadFlags_ok (arguments : List String) (a : args) (h : loadFlags arguments = .ok a) :
    ∃ f, loadFlagSet arguments = .ok f ∧ f.vars = a := by
  unfold loadFlags at h
  split at h
  · rename_i f hf
    simp only [Except.ok.injEq] at h
    exact ⟨f, hf, h⟩
  · simp at h

theorem loadFlags_version (arguments : List String) (a : args)
    (h : loadFlags arguments = .ok a) : a.version = false := by
  obtain ⟨f, hf, rfl⟩ := loadFlags_ok arguments a h
  exact (loadFlagSet_defaults arguments f hf).1

/-! ## The orchestrator -/

theorem loadConfiguration_of_flags (w : Collaborators ρ) (env : Env) (c : Config ρ)
    (arguments : List String) (a : args) (hf : loadFlags arguments = .ok a)
    (hv : a.version = false) :
    loadConfiguration w env c arguments =
      match (loadConfigurationFile w c a).err with
      | some err =>
        Outcome.returned (some err) [] (loadConfigurationFile w c a).loaded
          (loadConfigurationFile w c a).c
      | none =>
        Outcome.returned none [] (loadConfigurationFile w c a).loaded
          (loadEnvVars env (a.setConfig (loadConfigurationFile w c a).c)) := by
  unfold loadConfiguration
  rw [hf]
  simp [hv]

theorem loadConfiguration_returned_nil (w : Collaborators ρ) (env : Env) (c : Config ρ)
    (arguments stdout loaded : List String) (c' : Config ρ)
    (h : loadConfiguration w env c arguments = Outcome.returned none stdout loaded c') :
    ∃ a, loadFlags arguments = .ok a ∧ (loadConfigurationFile w c a).err = none ∧
      c' = loadEnvVars env (a.setConfig (loadConfigurationFile w c a).c) ∧
      loaded = (loadConfigurationFile w c a).loaded ∧ stdout = [] := by
  rcases hf : loadFlags arguments with status | a
  · unfold loadConfiguration at h
    rw [hf] at h
    simp at h
  · have hv := loadFlags_version arguments a hf
    rw [loadConfiguration_of_flags w env c arguments a hf hv] at h
    refine ⟨a, rfl, ?_⟩
    split at h
    · simp at h
    · rename_i he
      simp only [Outcome.returned.injEq, true_and] at h
      exact ⟨he, h.2.2.symm, h.2.1.symm, h.1.symm⟩

theorem strLength_pos_iff (s : String) : s.length > 0 ↔ s ≠ "" := by
  obtain ⟨l⟩ := s
  cases l <;> simp [String.length, String.ext_iff]

/-! ## Precedence of the three sources -/

/-- C1. Environment override wins last: whenever `loadConfiguration` returns
nil, a non-empty `TRK_PROXY_PORT` that `strconv.ParseInt(x, 10, 64)` reads as
`n` makes the resolved `ProxyServer.ListenPort` equal to `n`, whatever the file
and the flags set; likewise `TRK_METRICS_PORT` decides `Metrics.ListenPort`,
and a non-empty `TRK_ORIGIN` / `TRK_LOG_LEVEL` decides `DefaultOriginURL` /
`Logging.LogLevel`. -/
theorem env_override_wins_last (w : Collaborators ρ) (env : Env) (c : Config ρ)
    (arguments stdout loaded : List String) (c' : Config ρ)
    (h : loadConfiguration w env c arguments = Outcome.returned none stdout loaded c') :
    (∀ n : Int, env evProxyPort ≠ "" → ParseInt (env evProxyPort).data 10 64 = (n, none) →
      c'.ProxyServer.ListenPort = n) ∧
    (∀ n : Int, env evMetricsPort ≠ "" → ParseInt (env evMetricsPort).data 10 64 = (n, none) →
      c'.Metrics.ListenPort = n) ∧
    (env evOrigin ≠ "" → c'.DefaultOriginURL = env evOrigin) ∧
    (env evLogLevel ≠ "" → c'.Logging.LogLevel = env evLogLevel) := by
  obtain ⟨a, -, -, rfl, -, -⟩ := loadConfiguration_returned_nil w env c arguments stdout loaded c' h
  refine ⟨?_, ?_, ?_, ?_⟩
  · intro n hne hp
    rw [loadEnvVars_ProxyPort, if_pos hne, hp]
  · intro n hne hp
    rw [loadEnvVars_MetricsPort, if_pos hne, hp]
  · intro hne
    rw [loadEnvVars_DefaultOriginURL, if_pos hne]
  · intro hne
    rw [loadEnvVars_LogLevel, if_pos hne]

/-- C1 at a concrete input: flags `--proxy-port 8080 --metrics-port 8081
--origin http://flag:1 --log-level WARN`, environment `TRK_PROXY_PORT=9090`,
`TRK_METRICS_PORT=9091`, `TRK_ORIGIN=http://origin:9090`, `TRK_LOG_LEVEL=DEBUG`:
the call returns nil and every field holds the environment's value. -/
theorem env_override_wins_last_witness :
    loadConfiguration noFiles fullEnv sampleConfig
        ["--proxy-port", "8080", "--metrics-port", "8081", "--origin", "http://flag:1",
          "--log-level", "WARN"] =
      Outcome.returned none [] [] overriddenConfig ∧
    overriddenConfig.ProxyServer.ListenPort = 9090 ∧
    overriddenConfig.Metrics.ListenPort = 9091 ∧
    overriddenConfig.DefaultOriginURL = fullEnv evOrigin ∧
    overriddenConfig.Logging.LogLevel = fullEnv evLogLevel :=
  have h := env_override_wins_last noFiles fullEnv sampleConfig
    ["--proxy-port", "8080", "--metrics-port", "8081", "--origin", "http://flag:1",
      "--log-level", "WARN"] [] [] overriddenConfig rfl
  ⟨rfl, h.1 9090 (by decide) rfl, h.2.1 9091 (by decide) rfl, h.2.2.1 (by decide),
    h.2.2.2 (by decide)⟩

/-- C2 as stated fails: with no flag at all and `TRK_LOG_LEVEL=DEBUG`,
`loadConfiguration` returns nil, the parsed `log-level` flag holds its default
`"INFO"`, and the resolved `Logging.LogLevel` is `"DEBUG"`. -/
theorem dense_overwrite_counterexample :
    loadFlags [] = .ok defaultArgs ∧
    loadConfiguration noFiles (envWith evLogLevel "DEBUG") sampleConfig [] =
      Outcome.returned none [] [] { sampleConfig with Logging := { LogLevel := "DEBUG" } } ∧
    ({ sampleConfig with Logging := { LogLevel := "DEBUG" } } : Config Unit).Logging.LogLevel ≠
      defaultArgs.logLevel :=
  ⟨rfl, rfl, by decide⟩

/-- C2, amended. Dense overwrite: whenever `loadConfiguration` returns nil, the
resolved `Main.InstanceID` equals the parsed `instance-id` flag value, and the
resolved `Logging.LogLevel` equals the parsed `log-level` flag value when
`TRK_LOG_LEVEL` is empty (a non-empty `TRK_LOG_LEVEL` replaces it); a flag that
was not supplied holds its default, so the values are then `0` and `"INFO"`
whatever the file set. -/
theorem dense_overwrite (w : Collaborators ρ) (env : Env) (c : Config ρ)
    (arguments stdout loaded : List String) (c' : Config ρ)
    (h : loadConfiguration w env c arguments = Outcome.returned none stdout loaded c') :
    ∃ f : FlagSet args, loadFlagSet arguments = .ok f ∧
      c'.Main.InstanceID = f.vars.instanceID ∧
      (env evLogLevel = "" → c'.Logging.LogLevel = f.vars.logLevel) ∧
      (env evLogLevel ≠ "" → c'.Logging.LogLevel = env evLogLevel) ∧
      (cfInstanceID ∉ f.actual → c'.Main.InstanceID = 0) ∧
      (cfLogLevel ∉ f.actual → env evLogLevel = "" → c'.Logging.LogLevel = "INFO") := by
  obtain ⟨a, hf, -, rfl, -, -⟩ := loadConfiguration_returned_nil w env c arguments stdout loaded c' h
  obtain ⟨f, hfs, rfl⟩ := loadFlags_ok arguments a hf
  obtain ⟨-, d1, d2, -⟩ := loadFlagSet_defaults arguments f hfs
  have hid : (loadEnvVars env (f.vars.setConfig (loadConfigurationFile w c f.vars).c)).Main.InstanceID
      = f.vars.instanceID := by
    rw [loadEnvVars_Main, setConfig_InstanceID]
  refine ⟨f, hfs, hid, ?_, ?_, ?_, ?_⟩
  · intro he
    rw [loadEnvVars_LogLevel, if_neg (not_not.mpr he), setConfig_LogLevel]
  · intro he
    rw [loadEnvVars_LogLevel, if_pos he]
  · intro hn
    rw [hid, d2 hn]
  · intro hn he
    rw [loadEnvVars_LogLevel, if_neg (not_not.mpr he), setConfig_LogLevel, d1 hn]

/-- C2, amended, at a concrete input: no flag, no environment variable, and a
configuration file that sets the instance id to 7: the resolved instance id is
0 and the resolved log level is `"INFO"`. -/
theorem dense_overwrite_witness :
    loadConfiguration fileWithInstance7 emptyEnv sampleConfig [] =
      Outcome.returned none [] ["/etc/trickster/trickster.conf"] sampleConfig ∧
    ∃ f : FlagSet args, loadFlagSet [] = .ok f ∧
      sampleConfig.Main.InstanceID = f.vars.instanceID ∧
      (emptyEnv evLogLevel = "" → sampleConfig.Logging.LogLevel = f.vars.logLevel) ∧
      (emptyEnv evLogLevel ≠ "" → sampleConfig.Logging.LogLevel = emptyEnv evLogLevel) ∧
      (cfInstanceID ∉ f.actual → sampleConfig.Main.InstanceID = 0) ∧
      (cfLogLevel ∉ f.actual → emptyEnv evLogLevel = "" →
        sampleConfig.Logging.LogLevel = "INFO") :=
  ⟨rfl, dense_overwrite fileWithInstance7 emptyEnv sampleConfig [] []
    ["/etc/trickster/trickster.conf"] sampleConfig rfl⟩

/-- C3. Sparse override retention: `setConfig` leaves `DefaultOriginURL`
unchanged when `a.origin` is empty, `ProxyServer.ListenPort` unchanged when
`a.proxyListenPort` is 0, and `Metrics.ListenPort` unchanged when
`a.metricsListenPort` is 0; hence, when `loadConfiguration` returns nil with
such flags and the matching environment variable is empty, the resolved field
equals the value the file load left (the file value or the default). -/
theorem setConfig_sparse_retention (c : Config ρ) (a : args) :
    (a.origin = "" → (a.setConfig c).DefaultOriginURL = c.DefaultOriginURL) ∧
    (a.proxyListenPort = 0 → (a.setConfig c).ProxyServer.ListenPort = c.ProxyServer.ListenPort) ∧
    (a.metricsListenPort = 0 → (a.setConfig c).Metrics.ListenPort = c.Metrics.ListenPort) ∧
    (∀ (w : Collaborators ρ) (env : Env) (arguments stdout loaded : List String) (c' : Config ρ),
      loadFlags arguments = .ok a →
      loadConfiguration w env c arguments = Outcome.returned none stdout loaded c' →
      (a.origin = "" → env evOrigin = "" →
        c'.DefaultOriginURL = (loadConfigurationFile w c a).c.DefaultOriginURL) ∧
      (a.proxyListenPort = 0 → env evProxyPort = "" →
        c'.ProxyServer.ListenPort = (loadConfigurationFile w c a).c.ProxyServer.ListenPort) ∧
      (a.metricsListenPort = 0 → env evMetricsPort = "" →
        c'.Metrics.ListenPort = (loadConfigurationFile w c a).c.Metrics.ListenPort)) := by
  have e1 : ∀ d : Config ρ, a.origin = "" → (a.setConfig d).DefaultOriginURL = d.DefaultOriginURL := by
    intro d h
    rw [setConfig_DefaultOriginURL, if_neg]
    rw [strLength_pos_iff]
    exact not_not.mpr h
  have e2 : ∀ d : Config ρ, a.proxyListenPort = 0 →
      (a.setConfig d).ProxyServer.ListenPort = d.ProxyServer.ListenPort := by
    intro d h
    rw [setConfig_ProxyPort, if_neg]
    omega
  have e3 : ∀ d : Config ρ, a.metricsListenPort = 0 →
      (a.setConfig d).Metrics.ListenPort = d.Metrics.ListenPort := by
    intro d h
    rw [setConfig_MetricsPort, if_neg]
    omega
  refine ⟨e1 c, e2 c, e3 c, ?_⟩
  intro w env arguments stdout loaded c' hf h
  obtain ⟨a', hf', -, rfl, -, -⟩ :=
    loadConfiguration_returned_nil w env c arguments stdout loaded c' h
  rw [hf] at hf'
  simp only [Except.ok.injEq] at hf'
  subst hf'
  refine ⟨?_, ?_, ?_⟩
  · intro h1 h2
    rw [loadEnvVars_DefaultOriginURL, if_neg (not_not.mpr h2), e1 _ h1]
  · intro h1 h2
    rw [loadEnvVars_ProxyPort, if_neg (not_not.mpr h2), e2 _ h1]
  · intro h1 h2
    rw [loadEnvVars_MetricsPort, if_neg (not_not.mpr h2), e3 _ h1]

/-- C3 at a concrete input: the record holds origin `"http://prometheus:9090"`,
no flag is given and no environment variable is set: `setConfig` and the whole
resolution leave the origin and both ports as they were. -/
theorem setConfig_sparse_retention_witness :
    (defaultArgs.setConfig sampleConfig).DefaultOriginURL = "http://prometheus:9090" ∧
    (defaultArgs.setConfig sampleConfig).ProxyServer.ListenPort = 9090 ∧
    (defaultArgs.setConfig sampleConfig).Metrics.ListenPort = 8082 ∧
    loadConfiguration noFiles emptyEnv sampleConfig [] =
      Outcome.returned none [] [] sampleConfig ∧
    sampleConfig.DefaultOriginURL =
      (loadConfigurationFile noFiles sampleConfig defaultArgs).c.DefaultOriginURL ∧
    sampleConfig.ProxyServer.ListenPort =
      (loadConfigurationFile noFiles sampleConfig defaultArgs).c.ProxyServer.ListenPort ∧
    sampleConfig.Metrics.ListenPort =
      (loadConfigurationFile noFiles sampleConfig defaultArgs).c.Metrics.ListenPort :=
  have h := setConfig_sparse_retention sampleConfig defaultArgs
  have r := h.2.2.2 noFiles emptyEnv [] [] [] sampleConfig rfl rfl
  ⟨h.1 rfl, h.2.1 rfl, h.2.2.1 rfl, rfl, r.1 rfl rfl, r.2.1 rfl rfl, r.2.2 rfl rfl⟩

/-- C4 as stated fails for the instance id: the configuration file sets it to
7, no flag is supplied and no environment variable is set; `loadConfiguration`
returns nil and the resolved instance id is 0, the default of the flag. -/
theorem no_clobbering_counterexample :
    (∃ f : FlagSet args, loadFlagSet [] = .ok f ∧ f.actual = [] ∧ f.vars = defaultArgs) ∧
    (loadConfigurationFile fileWithInstance7 sampleConfig defaultArgs).c.Main.InstanceID = 7 ∧
    loadConfiguration fileWithInstance7 emptyEnv sampleConfig [] =
      Outcome.returned none [] ["/etc/trickster/trickster.conf"] sampleConfig ∧
    sampleConfig.Main.InstanceID ≠ 7 :=
  ⟨⟨_, rfl, rfl, rfl⟩, rfl, rfl, by decide⟩

/-- C4, amended. No accidental clobbering of the sparse fields: for the origin
URL, the proxy listen port and the metrics listen port, if the flag is not
supplied on the command line and the field's environment variable is empty,
then after a successful `loadConfiguration` the field equals the value it had
after the file load. The log level and the instance id are dense: when their
flag is not supplied (and `TRK_LOG_LEVEL` is empty) they hold the flag
defaults `"INFO"` and `0`. -/
theorem no_clobbering_sparse (w : Collaborators ρ) (env : Env) (c : Config ρ)
    (arguments stdout loaded : List String) (c' : Config ρ) (f : FlagSet args)
    (hf : loadFlagSet arguments = .ok f)
    (h : loadConfiguration w env c arguments = Outcome.returned none stdout loaded c') :
    (cfOrigin ∉ f.actual → env evOrigin = "" →
      c'.DefaultOriginURL = (loadConfigurationFile w c f.vars).c.DefaultOriginURL) ∧
    (cfProxyPort ∉ f.actual → env evProxyPort = "" →
      c'.ProxyServer.ListenPort = (loadConfigurationFile w c f.vars).c.ProxyServer.ListenPort) ∧
    (cfMetricsPort ∉ f.actual → env evMetricsPort = "" →
      c'.Metrics.ListenPort = (loadConfigurationFile w c f.vars).c.Metrics.ListenPort) ∧
    (cfLogLevel ∉ f.actual → env evLogLevel = "" → c'.Logging.LogLevel = "INFO") ∧
    (cfInstanceID ∉ f.actual → c'.Main.InstanceID = 0) := by
  obtain ⟨a, hfa, -, rfl, -, -⟩ :=
    loadConfiguration_returned_nil w env c arguments stdout loaded c' h
  rw [loadFlags_of_flagSet arguments f hf] at hfa
  simp only [Except.ok.injEq] at hfa
  subst hfa
  obtain ⟨-, d1, d2, d3, d4, d5, -⟩ := loadFlagSet_defaults arguments f hf
  refine ⟨?_, ?_, ?_, ?_, ?_⟩
  · intro hn he
    rw [loadEnvVars_DefaultOriginURL, if_neg (not_not.mpr he), setConfig_DefaultOriginURL,
      if_neg]
    rw [strLength_pos_iff]
    exact not_not.mpr (d3 hn)
  · intro hn he
    rw [loadEnvVars_ProxyPort, if_neg (not_not.mpr he), setConfig_ProxyPort, if_neg]
    rw [d4 hn]
    decide
  · intro hn he
    rw [loadEnvVars_MetricsPort, if_neg (not_not.mpr he), setConfig_MetricsPort, if_neg]
    rw [d5 hn]
    decide
  · intro hn he
    rw [loadEnvVars_LogLevel, if_neg (not_not.mpr he), setConfig_LogLevel, d1 hn]
  · intro hn
    rw [loadEnvVars_Main, setConfig_InstanceID, d2 hn]

/-- C4, amended, at a concrete input: only `--instance-id 3` is supplied, no
environment variable is set, and the file sets the instance id to 7: origin
and both ports are those the file load left, the log level is `"INFO"`. -/
theorem no_clobbering_sparse_witness :
    loadFlagSet ["--instance-id", "3"] = .ok instance3Flags ∧
    loadConfiguration fileWithInstance7 emptyEnv sampleConfig ["--instance-id", "3"] =
      Outcome.returned none [] ["/etc/trickster/trickster.conf"]
        { sampleConfig with Main := { sampleConfig.Main with InstanceID := 3 } } ∧
    sampleConfig.DefaultOriginURL = "http://prometheus:9090" ∧
    sampleConfig.ProxyServer.ListenPort = 9090 ∧
    sampleConfig.Metrics.ListenPort = 8082 ∧
    sampleConfig.Logging.LogLevel = "INFO" :=
  have h := no_clobbering_sparse fileWithInstance7 emptyEnv sampleConfig
    ["--instance-id", "3"] [] ["/etc/trickster/trickster.conf"]
    { sampleConfig with Main := { sampleConfig.Main with InstanceID := 3 } }
    instance3Flags rfl rfl
  ⟨rfl, rfl, h.1 (by decide) rfl, h.2.1 (by decide) rfl, h.2.2.1 (by decide) rfl,
    h.2.2.2.1 (by decide) rfl⟩

/-- C5 as stated fails on both halves. The arguments `--proxy-port -1` parse
to a value that differs from the default 0, and `setConfig` leaves the proxy
port at the 9090 the record held. With `TRK_PROXY_PORT=http`, a non-empty
variable, `loadEnvVars` leaves the proxy port at the 8080 the flag set. -/
theorem later_source_wins_counterexample :
    loadFlags ["--proxy-port", "-1"] = .ok negativePortArgs ∧
    negativePortArgs.proxyListenPort ≠ 0 ∧
    (negativePortArgs.setConfig sampleConfig).ProxyServer.ListenPort = 9090 ∧
    (negativePortArgs.setConfig sampleConfig).ProxyServer.ListenPort ≠
      negativePortArgs.proxyListenPort ∧
    envWith evProxyPort "http" evProxyPort ≠ "" ∧
    (loadEnvVars (envWith evProxyPort "http")
      (port8080Args.setConfig sampleConfig)).ProxyServer.ListenPort =
        port8080Args.proxyListenPort :=
  ⟨rfl, by decide, rfl, by decide, by decide, rfl⟩

/-- C5, amended. Later source wins: after `setConfig` the log level and the
instance id equal the flag's value; the origin equals the flag's value when it
is non-empty; the proxy port and the metrics port equal the flag's value when
it is greater than 0. After `loadEnvVars` the origin and the log level equal a
non-empty environment value, and a port equals the value of a non-empty
variable that `strconv.ParseInt(x, 10, 64)` reads without error. -/
theorem later_source_wins (c : Config ρ) (a : args) (env : Env) :
    (a.setConfig c).Logging.LogLevel = a.logLevel ∧
    (a.setConfig c).Main.InstanceID = a.instanceID ∧
    (a.origin ≠ "" → (a.setConfig c).DefaultOriginURL = a.origin) ∧
    (a.proxyListenPort > 0 → (a.setConfig c).ProxyServer.ListenPort = a.proxyListenPort) ∧
    (a.metricsListenPort > 0 → (a.setConfig c).Metrics.ListenPort = a.metricsListenPort) ∧
    (env evOrigin ≠ "" →
      (loadEnvVars env (a.setConfig c)).DefaultOriginURL = env evOrigin) ∧
    (env evLogLevel ≠ "" →
      (loadEnvVars env (a.setConfig c)).Logging.LogLevel = env evLogLevel) ∧
    (∀ n : Int, env evProxyPort ≠ "" → ParseInt (env evProxyPort).data 10 64 = (n, none) →
      (loadEnvVars env (a.setConfig c)).ProxyServer.ListenPort = n) ∧
    (∀ n : Int, env evMetricsPort ≠ "" → ParseInt (env evMetricsPort).data 10 64 = (n, none) →
      (loadEnvVars env (a.setConfig c)).Metrics.ListenPort = n) := by
  refine ⟨setConfig_LogLevel a c, setConfig_InstanceID a c, ?_, ?_, ?_, ?_, ?_, ?_, ?_⟩
  · intro h
    rw [setConfig_DefaultOriginURL, if_pos ((strLength_pos_iff _).mpr h)]
  · intro h
    rw [setConfig_ProxyPort, if_pos h]
  · intro h
    rw [setConfig_MetricsPort, if_pos h]
  · intro h
    rw [loadEnvVars_DefaultOriginURL, if_pos h]
  · intro h
    rw [loadEnvVars_LogLevel, if_pos h]
  · intro n h hp
    rw [loadEnvVars_ProxyPort, if_pos h, hp]
  · intro n h hp
    rw [loadEnvVars_MetricsPort, if_pos h, hp]

/-- C5, amended, at a concrete input: the flags `--proxy-port 8080
--metrics-port 8081 --origin http://flag:1 --log-level WARN --instance-id 5`
win over the record, and the four variables of `fullEnv` win over the flags. -/
theorem later_source_wins_witness :
    loadFlags ["--proxy-port", "8080", "--metrics-port", "8081", "--origin", "http://flag:1",
        "--log-level", "WARN", "--instance-id", "5"] = .ok allFlagsArgs ∧
    (allFlagsArgs.setConfig sampleConfig).Logging.LogLevel = "WARN" ∧
    (allFlagsArgs.setConfig sampleConfig).Main.InstanceID = 5 ∧
    (allFlagsArgs.setConfig sampleConfig).DefaultOriginURL = "http://flag:1" ∧
    (allFlagsArgs.setConfig sampleConfig).ProxyServer.ListenPort = 8080 ∧
    (allFlagsArgs.setConfig sampleConfig).Metrics.ListenPort = 8081 ∧
    (loadEnvVars fullEnv (allFlagsArgs.setConfig sampleConfig)).DefaultOriginURL =
      "http://origin:9090" ∧
    (loadEnvVars fullEnv (allFlagsArgs.setConfig sampleConfig)).Logging.LogLevel = "DEBUG" ∧
    (loadEnvVars fullEnv (allFlagsArgs.setConfig sampleConfig)).ProxyServer.ListenPort = 9090 ∧
    (loadEnvVars fullEnv (allFlagsArgs.setConfig sampleConfig)).Metrics.ListenPort = 9091 :=
  have h := later_source_wins sampleConfig allFlagsArgs fullEnv
  ⟨rfl, h.1, h.2.1, h.2.2.1 (by decide), h.2.2.2.1 (by decide),
    h.2.2.2.2.1 (by decide), h.2.2.2.2.2.1 (by decide), h.2.2.2.2.2.2.1 (by decide),
    h.2.2.2.2.2.2.2.1 9090 (by decide) rfl, h.2.2.2.2.2.2.2.2 9091 (by decide) rfl⟩

/-! ## Error handling -/

theorem loadEnvVars_congr (env env' : Env) (c : Config ρ)
    (h1 : env evOrigin = env' evOrigin) (h2 : env evLogLevel = env' evLogLevel)
    (h3 : (loadEnvVars env c).ProxyServer.ListenPort =
      (loadEnvVars env' c).ProxyServer.ListenPort)
    (h4 : (loadEnvVars env c).Metrics.ListenPort = (loadEnvVars env' c).Metrics.ListenPort) :
    loadEnvVars env c = loadEnvVars env' c := by
  apply Config.ext_fields
  · rw [loadEnvVars_DefaultOriginURL, loadEnvVars_DefaultOriginURL, h1]
  · rw [loadEnvVars_LogLevel, loadEnvVars_LogLevel, h2]
  · rw [loadEnvVars_Main, loadEnvVars_Main]
  · rw [loadEnvVars_Main, loadEnvVars_Main]
  · exact h4
  · exact h3
  · rw [loadEnvVars_rest, loadEnvVars_rest]

/-- C6. Tolerated per-field conversion failure: when `TRK_PROXY_PORT` (resp.
`TRK_METRICS_PORT`) is non-empty and `strconv.ParseInt(x, 10, 64)` returns an
error for it, `loadEnvVars` leaves `ProxyServer.ListenPort` (resp.
`Metrics.ListenPort`) at its pre-overlay value and does to the record exactly
what it does when that variable is unset, so the other three variables are
still applied; and `loadConfiguration` returns nil whenever the file load
returned nil, the resolved port being the one the flag overlay left. -/
theorem bad_port_variable_tolerated (env : Env) (c : Config ρ) :
    (env evProxyPort ≠ "" → (ParseInt (env evProxyPort).data 10 64).2 ≠ none →
      (loadEnvVars env c).ProxyServer.ListenPort = c.ProxyServer.ListenPort ∧
      loadEnvVars env c = loadEnvVars (Function.update env evProxyPort "") c ∧
      ∀ (w : Collaborators ρ) (arguments : List String) (a : args),
        loadFlags arguments = .ok a → (loadConfigurationFile w c a).err = none →
        ∃ c', loadConfiguration w env c arguments =
            Outcome.returned none [] (loadConfigurationFile w c a).loaded c' ∧
          c'.ProxyServer.ListenPort =
            (a.setConfig (loadConfigurationFile w c a).c).ProxyServer.ListenPort) ∧
    (env evMetricsPort ≠ "" → (ParseInt (env evMetricsPort).data 10 64).2 ≠ none →
      (loadEnvVars env c).Metrics.ListenPort = c.Metrics.ListenPort ∧
      loadEnvVars env c = loadEnvVars (Function.update env evMetricsPort "") c ∧
      ∀ (w : Collaborators ρ) (arguments : List String) (a : args),
        loadFlags arguments = .ok a → (loadConfigurationFile w c a).err = none →
        ∃ c', loadConfiguration w env c arguments =
            Outcome.returned none [] (loadConfigurationFile w c a).loaded c' ∧
          c'.Metrics.ListenPort =
            (a.setConfig (loadConfigurationFile w c a).c).Metrics.ListenPort) := by
  have keep1 : ∀ d : Config ρ, env evProxyPort ≠ "" →
      (ParseInt (env evProxyPort).data 10 64).2 ≠ none →
      (loadEnvVars env d).ProxyServer.ListenPort = d.ProxyServer.ListenPort := by
    intro d hne hbad
    rw [loadEnvVars_ProxyPort, if_pos hne]
    rcases hp : ParseInt (env evProxyPort).data 10 64 with ⟨y, _ | e⟩
    · rw [hp] at hbad
      exact absurd rfl hbad
    · rfl
  have keep2 : ∀ d : Config ρ, env evMetricsPort ≠ "" →
      (ParseInt (env evMetricsPort).data 10 64).2 ≠ none →
      (loadEnvVars env d).Metrics.ListenPort = d.Metrics.ListenPort := by
    intro d hne hbad
    rw [loadEnvVars_MetricsPort, if_pos hne]
    rcases hp : ParseInt (env evMetricsPort).data 10 64 with ⟨y, _ | e⟩
    · rw [hp] at hbad
      exact absurd rfl hbad
    · rfl
  have run : ∀ (w : Collaborators ρ) (arguments : List String) (a : args),
      loadFlags arguments = .ok a → (loadConfigurationFile w c a).err = none →
      loadConfiguration w env c arguments =
        Outcome.returned none [] (loadConfigurationFile w c a).loaded
          (loadEnvVars env (a.setConfig (loadConfigurationFile w c a).c)) := by
    intro w arguments a hf he
    rw [loadConfiguration_of_flags w env c arguments a hf (loadFlags_version arguments a hf), he]
  refine ⟨?_, ?_⟩
  · intro hne hbad
    refine ⟨keep1 c hne hbad, ?_, ?_⟩
    · apply loadEnvVars_congr
      · rw [Function.update_noteq (by decide)]
      · rw [Function.update_noteq (by decide)]
      · rw [keep1 c hne hbad, loadEnvVars_ProxyPort, Function.update_same]
        simp
      · rw [loadEnvVars_MetricsPort, loadEnvVars_MetricsPort, Function.update_noteq (by decide)]
    · intro w arguments a hf he
      exact ⟨_, run w arguments a hf he, keep1 _ hne hbad⟩
  · intro hne hbad
    refine ⟨keep2 c hne hbad, ?_, ?_⟩
    · apply loadEnvVars_congr
      · rw [Function.update_noteq (by decide)]
      · rw [Function.update_noteq (by decide)]
      · rw [loadEnvVars_ProxyPort, loadEnvVars_ProxyPort, Function.update_noteq (by decide)]
      · rw [keep2 c hne hbad, loadEnvVars_MetricsPort, Function.update_same]
        simp
    · intro w arguments a hf he
      exact ⟨_, run w arguments a hf he, keep2 _ hne hbad⟩

/-- C6 at a concrete input: `TRK_PROXY_PORT=http` and
`TRK_METRICS_PORT=99999999999999999999` leave both ports as they were, the
origin and the log level are still taken from the environment, and
`loadConfiguration` returns nil with the proxy port the flag set. -/
theorem bad_port_variable_tolerated_witness :
    (loadEnvVars badPortsEnv sampleConfig).ProxyServer.ListenPort = 9090 ∧
    (loadEnvVars badPortsEnv sampleConfig).Metrics.ListenPort = 8082 ∧
    loadEnvVars badPortsEnv sampleConfig =
      { sampleConfig with
        DefaultOriginURL := "http://origin:9090", Logging := { LogLevel := "DEBUG" } } ∧
    (∃ c', loadConfiguration noFiles badPortsEnv sampleConfig ["--proxy-port", "8080"] =
        Outcome.returned none [] [] c' ∧ c'.ProxyServer.ListenPort = 8080) ∧
    (∃ c', loadConfiguration noFiles badPortsEnv sampleConfig ["--metrics-port", "8081"] =
        Outcome.returned none [] [] c' ∧ c'.Metrics.ListenPort = 8081) :=
  have h := bad_port_variable_tolerated badPortsEnv sampleConfig
  have h1 := h.1 (by decide) (by decide)
  have h2 := h.2 (by decide) (by decide)
  ⟨h1.1, h2.1, rfl,
    h1.2.2 noFiles ["--proxy-port", "8080"] port8080Args rfl rfl,
    h2.2.2 noFiles ["--metrics-port", "8081"] { defaultArgs with metricsListenPort := 8081 }
      rfl rfl⟩

/-- C7, what the code does: `loadFlags` registers no flag named `version`, so
on the arguments `--version` the flag set reports an undefined flag and exits
the process with status 2 and nothing printed on standard output; and for no
arguments at all does `loadFlags` return with `version` set, so the branch of
`loadConfiguration` that prints the version and exits with status 3 is never
taken. -/
theorem version_flag_not_registered (w : Collaborators ρ) (env : Env) (c : Config ρ) :
    registeredFlags.formal.lookup cfVersion = none ∧
    loadFlagSet ["--version"] = .error (FlagError.notDefined "version") ∧
    loadConfiguration w env c ["--version"] = Outcome.exited 2 [] [] c ∧
    (∀ (arguments : List String) (a : args), loadFlags arguments = .ok a → a.version = false) ∧
    (∀ (arguments stdout loaded : List String) (c' : Config ρ),
      loadConfiguration w env c arguments ≠ Outcome.exited 3 stdout loaded c') := by
  refine ⟨rfl, rfl, rfl, loadFlags_version, ?_⟩
  intro arguments stdout loaded c' h
  rcases hf : loadFlags arguments with status | a
  · have hs : status = 0 ∨ status = 2 := by
      unfold loadFlags at hf
      split at hf
      · simp at hf
      · rename_i e he
        simp only [Except.error.injEq] at hf
        subst hf
        cases e <;> simp [exitStatus]
    unfold loadConfiguration at h
    rw [hf] at h
    simp only [Outcome.exited.injEq] at h
    omega
  · rw [loadConfiguration_of_flags w env c arguments a hf (loadFlags_version arguments a hf)] at h
    split at h <;> simp at h

/-- C8. File-load error asymmetry: `loadConfigurationFile` returns an error
exactly when the path given by `--config` is non-empty and `LoadFile` fails on
it, or that path is empty, the default path opens and `LoadFile` fails on it;
the error is the one `LoadFile` returned; and `loadConfiguration`, the version
flag not being set, returns that same error, and nil in every other case. -/
theorem file_load_error_asymmetry (w : Collaborators ρ) (c : Config ρ) (a : args) :
    ((loadConfigurationFile w c a).err ≠ none ↔
      (a.path ≠ "" ∧ (w.LoadFile c a.path).2 ≠ none) ∨
      (a.path = "" ∧ w.Open c.Main.ConfigFile = true ∧
        (w.LoadFile c c.Main.ConfigFile).2 ≠ none)) ∧
    (∀ e : Error, (loadConfigurationFile w c a).err = some e →
      (a.path ≠ "" ∧ (w.LoadFile c a.path).2 = some e) ∨
      (a.path = "" ∧ w.Open c.Main.ConfigFile = true ∧
        (w.LoadFile c c.Main.ConfigFile).2 = some e)) ∧
    (∀ (env : Env) (arguments : List String), loadFlags arguments = .ok a → a.version = false →
      ∃ stdout loaded c', loadConfiguration w env c arguments =
        Outcome.returned (loadConfigurationFile w c a).err stdout loaded c') := by
  have herr : (loadConfigurationFile w c a).err =
      if a.path ≠ "" then (w.LoadFile c a.path).2
      else if w.Open c.Main.ConfigFile = true then (w.LoadFile c c.Main.ConfigFile).2
      else none := by
    unfold loadConfigurationFile
    split_ifs <;> (try split) <;> simp_all
  refine ⟨?_, ?_, ?_⟩
  · rw [herr]
    split_ifs with h1 h2 <;> simp_all
  · intro e
    rw [herr]
    split_ifs with h1 h2 <;> simp_all
  · intro env arguments hf hv
    rw [loadConfiguration_of_flags w env c arguments a hf hv]
    split
    · rename_i err he
      exact ⟨_, _, _, by rw [he]⟩
    · rename_i he
      exact ⟨_, _, _, by rw [he]⟩

/-- C8 at a concrete input: without `--config`, a default file that opens and
does not parse makes `loadConfiguration` return the error of `LoadFile`. -/
theorem file_load_error_asymmetry_witness :
    (loadConfigurationFile brokenDefaultFile sampleConfig defaultArgs).err =
      some "toml: bad syntax" ∧
    ∃ stdout loaded c', loadConfiguration brokenDefaultFile emptyEnv sampleConfig [] =
      Outcome.returned (some "toml: bad syntax") stdout loaded c' :=
  ⟨rfl, (file_load_error_asymmetry brokenDefaultFile sampleConfig defaultArgs).2.2
    emptyEnv [] rfl rfl⟩

/-- C9. Tolerated absence: when the arguments carry no `--config` (or the
parsed path is empty) and the default path `c.Main.ConfigFile` cannot be
opened, `loadConfiguration` returns nil, `LoadFile` is not invoked, and the
resolved record is the environment overlay applied to the flag overlay
applied to the incoming record. -/
theorem tolerated_absence (w : Collaborators ρ) (env : Env) (c : Config ρ)
    (arguments : List String) (f : FlagSet args)
    (hf : loadFlagSet arguments = .ok f)
    (hc : cfConfig ∉ f.actual ∨ f.vars.path = "")
    (ho : w.Open c.Main.ConfigFile = false) :
    loadConfiguration w env c arguments =
      Outcome.returned none [] [] (loadEnvVars env (f.vars.setConfig c)) := by
  obtain ⟨hv, -, -, -, -, -, d6⟩ := loadFlagSet_defaults arguments f hf
  have hp : f.vars.path = "" := hc.elim d6 id
  have hl : loadConfigurationFile w c f.vars = { c := c, err := none, loaded := [] } := by
    unfold loadConfigurationFile
    simp [hp, ho]
  rw [loadConfiguration_of_flags w env c arguments f.vars
    (loadFlags_of_flagSet arguments f hf) hv, hl]

/-- C9 at a concrete input: `--instance-id 3`, no file on the machine and the
four variables of `fullEnv`: nil is returned, nothing is loaded. -/
theorem tolerated_absence_witness :
    loadConfiguration noFiles fullEnv sampleConfig ["--instance-id", "3"] =
      Outcome.returned none [] []
        { overriddenConfig with Main := { sampleConfig.Main with InstanceID := 3 } } :=
  tolerated_absence noFiles fullEnv sampleConfig ["--instance-id", "3"] instance3Flags rfl
    (Or.inr rfl) rfl

/-- C10. Overlay frame and idempotence: `setConfig` changes no field other
than `DefaultOriginURL`, `ProxyServer.ListenPort`, `Metrics.ListenPort`,
`Logging.LogLevel` and `Main.InstanceID`; `loadEnvVars` changes no field other
than the first four of these (never `Main.InstanceID`, never
`Main.ConfigFile`); and either overlay applied twice gives the record it gives
applied once. -/
theorem overlay_frame_idempotent (c : Config ρ) (a : args) (env : Env) :
    (a.setConfig c).Main.ConfigFile = c.Main.ConfigFile ∧
    (a.setConfig c).rest = c.rest ∧
    (loadEnvVars env c).Main.InstanceID = c.Main.InstanceID ∧
    (loadEnvVars env c).Main.ConfigFile = c.Main.ConfigFile ∧
    (loadEnvVars env c).rest = c.rest ∧
    a.setConfig (a.setConfig c) = a.setConfig c ∧
    loadEnvVars env (loadEnvVars env c) = loadEnvVars env c := by
  refine ⟨setConfig_ConfigFile a c, setConfig_rest a c, ?_, ?_, loadEnvVars_rest env c, ?_, ?_⟩
  · rw [loadEnvVars_Main]
  · rw [loadEnvVars_Main]
  · apply Config.ext_fields
    · simp only [setConfig_DefaultOriginURL]
      split_ifs <;> rfl
    · simp only [setConfig_LogLevel]
    · simp only [setConfig_InstanceID]
    · simp only [setConfig_ConfigFile]
    · simp only [setConfig_MetricsPort]
      split_ifs <;> rfl
    · simp only [setConfig_ProxyPort]
      split_ifs <;> rfl
    · simp only [setConfig_rest]
  · apply Config.ext_fields
    · simp only [loadEnvVars_DefaultOriginURL]
      split_ifs <;> rfl
    · simp only [loadEnvVars_LogLevel]
      split_ifs <;> rfl
    · simp only [loadEnvVars_Main]
    · simp only [loadEnvVars_Main]
    · simp only [loadEnvVars_MetricsPort]
      rcases ParseInt (env evMetricsPort).data 10 64 with ⟨y, _ | e⟩ <;> split_ifs <;> rfl
    · simp only [loadEnvVars_ProxyPort]
      rcases ParseInt (env evProxyPort).data 10 64 with ⟨y, _ | e⟩ <;> split_ifs <;> rfl
    · simp only [loadEnvVars_rest]

end Overlays

end Trickster
